import Mathlib

/-!
Verification of the payment-gated image-generation flow of the BBQ11
repository.

The development shallowly embeds:
* `handleGenerate` — the polling variant of the flow controller
  (src/components/ui/sonner.tsx, second document, lines 128–217): validate,
  submit payment, poll a confirmation flag once per second for up to 30
  iterations, then call the generation endpoint and update the result state;
* `handleGenerateDelay` — the fixed-delay variant (same file, third
  document, lines 504–575): validate, submit payment, sleep one second,
  call the generation endpoint unconditionally;
* `handleFileUpload` — the upload validator (lines 92–118);
* `apiPOST` — the `/api/generate` route handler
  (src/app/api/generate/route.ts).

React state reads are modelled as live observations: the confirmation flag
is an oracle `Nat → Bool` indexed by the poll counter, and state setters
update a threaded record.  Toast emissions and generation-endpoint requests
are collected in output lists so that "no network call" and "an error is
surfaced" are plain facts about the result.
-/

/-- An uploaded file: MIME type and size in bytes (content abstracted to a
tag so distinct files compare unequal). -/
structure UFile where
  type : String
  size : Nat
  content : Nat
  deriving Repr, DecidableEq

/-- A generated image as stored in component state
(`interface GeneratedImage`): result URL, echoed prompt, timestamp. -/
structure GImage where
  imageUrl : String
  prompt : String
  timestamp : Nat
  deriving Repr, DecidableEq

/-- A request sent to the generation endpoint: the multipart form fields
`prompt` and optional `image`. -/
structure GenRequest where
  prompt : String
  image : Option UFile
  deriving Repr, DecidableEq

/-- The client-observed shape of a generation-endpoint response:
`response.ok`, and the `imageUrl` and `error` fields of the parsed JSON
body (`none` models a missing or non-string field). -/
structure ApiResponse where
  ok : Bool
  imageUrl : Option String
  error : Option String
  deriving Repr, DecidableEq

/-- Component state threaded through the flow: the `useState` cells of the
generator component together with the wagmi transaction state
(`txActive` is true between `sendTransaction` and `resetTransaction`). -/
structure CState where
  prompt : String
  isGenerating : Bool
  generatedImage : Option GImage
  generationHistory : List GImage
  uploadedImage : Option UFile
  toastId : Option Nat
  txActive : Bool
  deriving Repr, DecidableEq

/-- Environment of one invocation: the connected wallet address, the
confirmation flag as observed at each value of the poll counter, the
behaviour of `fetch "/api/generate"` (`Except.error` is a thrown transport
error), and the clock used for timestamps. -/
structure Env where
  address : Option String
  confirmed : Nat → Bool
  response : GenRequest → Except String ApiResponse
  now : Nat

/-- Toast notifications emitted during a flow. -/
inductive ToastEvt where
  | info (msg : String)
  | success (msg : String)
  | error (msg : String)
  deriving Repr, DecidableEq

/-- How an invocation of the flow ended. -/
inductive FlowOutcome where
  | validationError
  | timeout
  | transportError
  | apiError
  | invalidUrl
  | ok
  deriving Repr, DecidableEq

/-- Result of one invocation of the flow: final component state, the
requests actually sent to the generation endpoint, whether a payment
transaction was submitted, the toasts emitted, and the outcome. -/
structure FlowRes where
  state : CState
  genCalls : List GenRequest
  txSubmitted : Bool
  toasts : List ToastEvt
  outcome : FlowOutcome
  deriving Repr, DecidableEq

/-- JavaScript's `String.prototype.trim`, written with structural
recursion so that concrete runs evaluate: drop whitespace from both ends
(the code only ever tests the result against the empty string). -/
def jsTrim (s : String) : String :=
  ⟨((s.data.dropWhile Char.isWhitespace).reverse.dropWhile
      Char.isWhitespace).reverse⟩

/-- JavaScript's `String.prototype.startsWith`, written on the character
list so that concrete runs evaluate. -/
def jsStartsWith (s pre : String) : Bool :=
  pre.data.isPrefixOf s.data

/-- The confirmation-wait loop of the polling variant:
`while (!isConfirmed && attempts < maxAttempts) { sleep; attempts++;
if (isConfirmed) break; }`.  `fuel` is `maxAttempts - attempts`; the
returned value is the poll counter at loop exit.  The flag is read at
counter value `a` on entry to each iteration and at `a + 1` after the
in-body increment. -/
def pollLoopAux (conf : Nat → Bool) : Nat → Nat → Nat
  | a, 0 => a
  | a, fuel + 1 =>
    if conf a then a
    else if conf (a + 1) then a + 1
    else pollLoopAux conf (a + 1) fuel

/-- The poll counter at exit of the 30-iteration confirmation wait. -/
def pollExit (conf : Nat → Bool) : Nat :=
  pollLoopAux conf 0 30

/-- The history update `prev => [newImage, ...prev.slice(0, 4)]` shared by
both variants. -/
def pushHistory (img : GImage) (prev : List GImage) : List GImage :=
  img :: prev.take 4

/-- The error message thrown on a non-ok response:
`apiData.error || "Failed to generate image"` (a missing or empty `error`
field falls back to the default). -/
def apiErrMsg (e : Option String) : String :=
  match e with
  | some m => if m = "" then "Failed to generate image" else m
  | none => "Failed to generate image"

/-- The `catch`/`finally` failure exit: `toast.error(…);
setIsGenerating(false); resetTransaction()`.  The polling variant's
`finally` also runs `if (toastId) { toast.dismiss(toastId);
setToastId(null) }`, whose guard reads the render-captured `toastId`, not
the value set during the flow; `tid` is the value the `toastId` cell holds
once that guard has (or has not) fired, computed by the caller
(`exitToastId` for the polling variant, the untouched cell for the
fixed-delay variant, which has no toast logic at all). -/
def failExit (s : CState) (tid : Option Nat) (calls : List GenRequest)
    (pre : List ToastEvt) (msg : String) (o : FlowOutcome) : FlowRes :=
  { state := { s with isGenerating := false, txActive := false, toastId := tid }
    genCalls := calls
    txSubmitted := true
    toasts := pre ++ [ToastEvt.error msg]
    outcome := o }

/-- The GeneratedImage built on a validated success response: the stored
prompt carries the `Reimagined: ` annotation exactly when an image was
attached. -/
def mkImage (env : Env) (s : CState) (url : String) : GImage :=
  { imageUrl := url
    prompt := if s.uploadedImage.isSome then "Reimagined: " ++ s.prompt
      else s.prompt
    timestamp := env.now }

/-- The success exit shared by both variants: store the new image, prepend
it to the history, emit the success toast, and run the `finally` cleanup;
`tid` is the `toastId` cell at exit, computed by the caller exactly as in
`failExit` (the stale-closure guard of the polling variant's `finally`, or
the untouched cell for the fixed-delay variant). -/
def successExit (env : Env) (s : CState) (tid : Option Nat)
    (pre : List ToastEvt) (req : GenRequest) (url : String) : FlowRes :=
  { state := { s with
        isGenerating := false
        txActive := false
        toastId := tid
        generatedImage := some (mkImage env s url)
        generationHistory := pushHistory (mkImage env s url) s.generationHistory }
    genCalls := [req]
    txSubmitted := true
    toasts := pre ++ [ToastEvt.success "Image generated successfully!"]
    outcome := FlowOutcome.ok }

/-- Shared tail of both variants after the generation endpoint has been
reached: parse the response, check `response.ok`, validate `imageUrl`
(`!newImage.imageUrl || typeof newImage.imageUrl !== 'string'` — a
missing, non-string, or empty URL is rejected), and on success store the
result. -/
def finishGenerate (env : Env) (s : CState) (tid : Option Nat)
    (pre : List ToastEvt) (req : GenRequest) : FlowRes :=
  match env.response req with
  | Except.error msg => failExit s tid [req] pre msg FlowOutcome.transportError
  | Except.ok resp =>
    if resp.ok = false then
      failExit s tid [req] pre (apiErrMsg resp.error) FlowOutcome.apiError
    else
      match resp.imageUrl with
      | none =>
        failExit s tid [req] pre "Invalid image URL received from API"
          FlowOutcome.invalidUrl
      | some url =>
        if url = "" then
          failExit s tid [req] pre "Invalid image URL received from API"
            FlowOutcome.invalidUrl
        else successExit env s tid pre req url

/-- An early validation return: the error toast is shown and nothing else
happens — no transaction, no generation call, state untouched. -/
def validationFail (s : CState) (msg : String) : FlowRes :=
  { state := s, genCalls := [], txSubmitted := false
    toasts := [ToastEvt.error msg]
    outcome := FlowOutcome.validationError }

/-- State after the try block has started in the polling variant:
`setIsGenerating(true)`, `sendTransaction(…)`, `setToastId(toastId_)`. -/
def startState (s : CState) : CState :=
  { s with isGenerating := true, txActive := true, toastId := some 0 }

/-- State after the try block has started in the fixed-delay variant
(which has no toast identifier). -/
def startStateDelay (s : CState) : CState :=
  { s with isGenerating := true, txActive := true }

/-- The processing toast shown by the polling variant. -/
def payToast : List ToastEvt :=
  [ToastEvt.info "Processing payment..."]

/-- The `toastId` cell once the polling variant's `finally` has run:
`if (toastId) { toast.dismiss(toastId); setToastId(null) }` tests the
render-captured `toastId` — the value the cell held when the invocation
started (`captured`), not the id set during the flow.  When a stale id was
captured the guard fires and nulls the cell; on a flow started from idle
(`captured = none`) the guard is skipped and the cell keeps the id set at
the start of the flow, so the pending toast is neither dismissed nor its
id reset. -/
def exitToastId (captured : Option Nat) : Option Nat :=
  if captured.isSome then none else some 0

/-- The polling variant of `handleGenerate`: validate prompt and wallet,
submit the 0.00005 ETH payment, show the processing toast, wait for the
confirmation flag under the 30-poll ceiling, and only then call the
generation endpoint.  The `finally` cleanup leaves the `toastId` cell at
`exitToastId s.toastId` (stale-closure guard). -/
def handleGenerate (env : Env) (s : CState) : FlowRes :=
  if jsTrim s.prompt = "" then validationFail s "Please enter a prompt"
  else if env.address = none then
    validationFail s "Please connect your wallet first"
  else if env.confirmed (pollExit env.confirmed) then
    finishGenerate env (startState s) (exitToastId s.toastId) payToast
      { prompt := s.prompt, image := s.uploadedImage }
  else
    failExit (startState s) (exitToastId s.toastId) [] payToast
      "Payment confirmation timeout - transaction may have failed"
      FlowOutcome.timeout

/-- The fixed-delay variant of `handleGenerate`: validate prompt and
wallet, submit the 0.1 USDC transfer, sleep one second, and call the
generation endpoint without requiring confirmation.  This component has no
toast identifier and shows no processing toast, so the `toastId` cell is
passed through untouched. -/
def handleGenerateDelay (env : Env) (s : CState) : FlowRes :=
  if jsTrim s.prompt = "" then validationFail s "Please enter a prompt"
  else if env.address = none then
    validationFail s "Please connect your wallet first"
  else
    finishGenerate env (startStateDelay s) s.toastId []
      { prompt := s.prompt, image := s.uploadedImage }

/-- The upload slots of component state touched by `handleFileUpload`. -/
structure UploadState where
  uploadedImage : Option UFile
  uploadedImagePreview : Option String
  deriving Repr, DecidableEq

/-- The data URL produced by the `FileReader` preview. -/
def dataUrl (f : UFile) : String :=
  "data:" ++ f.type ++ ";base64," ++ toString f.content

/-- `handleFileUpload`: reject a non-image MIME type or a file larger than
10 MiB before any state mutation; otherwise store the file, set the
preview, and report success. -/
def handleFileUpload (file : Option UFile) (s : UploadState) :
    UploadState × List ToastEvt :=
  match file with
  | none => (s, [])
  | some f =>
    if jsStartsWith f.type "image/" = false then
      (s, [ToastEvt.error "Please upload an image file"])
    else if f.size > 10 * 1024 * 1024 then
      (s, [ToastEvt.error "File size must be less than 10MB"])
    else
      ({ uploadedImage := some f, uploadedImagePreview := some (dataUrl f) },
        [ToastEvt.success "Image uploaded successfully!"])

/-- The JSON body and status of a `/api/generate` response; absent fields
are `none`. -/
structure ApiResult where
  status : Nat
  success : Bool
  imageUrl : Option String
  prompt : Option String
  error : Option String
  details : Option String
  deriving Repr, DecidableEq

/-- Server environment of the route handler: the `REPLICATE_API_TOKEN`
variable and the behaviour of `replicate.run` + `.url()` (`Except.error`
is a thrown error, caught by the route's `catch`). -/
structure ApiEnv where
  token : Option String
  runModel : GenRequest → Except String String

/-- The `POST` handler of `src/app/api/generate/route.ts`: 400 on a
missing (or empty, hence falsy) prompt before any model call, 500 without
`details` when the Replicate token is not configured, 500 with `details`
when the model call throws, and otherwise a 200 JSON body with `success`,
`imageUrl`, and the echoed prompt (annotated when an image was included).
The second component counts generation-model calls. -/
def apiPOST (env : ApiEnv) (prompt : Option String) (image : Option UFile) :
    ApiResult × Nat :=
  match prompt with
  | none =>
    ({ status := 400, success := false, imageUrl := none, prompt := none
       error := some "Prompt is required", details := none }, 0)
  | some p =>
    if p = "" then
      ({ status := 400, success := false, imageUrl := none, prompt := none
         error := some "Prompt is required", details := none }, 0)
    else
      match env.token with
      | none =>
        ({ status := 500, success := false, imageUrl := none, prompt := none
           error := some "Server configuration error: Replicate API token not configured"
           details := none }, 0)
      | some _ =>
        match env.runModel { prompt := p, image := image } with
        | Except.error msg =>
          ({ status := 500, success := false, imageUrl := none, prompt := none
             error := some "Failed to generate image", details := some msg }, 1)
        | Except.ok url =>
          ({ status := 200, success := true, imageUrl := some url
             prompt := some (if image.isSome then "Reimagined: " ++ p else p)
             error := none, details := none }, 1)

/-- Iterate the polling flow over a sequence of environments, threading
component state. -/
def runSeq (s : CState) : List Env → CState
  | [] => s
  | env :: rest => runSeq (handleGenerate env s).state rest

/-- Iterate the fixed-delay flow over a sequence of environments. -/
def runSeqDelay (s : CState) : List Env → CState
  | [] => s
  | env :: rest => runSeqDelay (handleGenerateDelay env s).state rest

/-! ## Properties of the confirmation wait loop -/

theorem pollLoopAux_le (conf : Nat → Bool) (fuel a : Nat) :
    pollLoopAux conf a fuel ≤ a + fuel := by
  induction fuel generalizing a with
  | zero => simp [pollLoopAux]
  | succ k ih =>
    simp only [pollLoopAux]
    split
    · omega
    · split
      · omega
      · have := ih (a + 1)
        omega

theorem pollLoopAux_none (conf : Nat → Bool) (fuel a : Nat)
    (h : ∀ t, a ≤ t → t ≤ a + fuel → conf t = false) :
    pollLoopAux conf a fuel = a + fuel := by
  induction fuel generalizing a with
  | zero => simp [pollLoopAux]
  | succ k ih =>
    have h0 : conf a = false := h a le_rfl (by omega)
    have h1 : conf (a + 1) = false := h (a + 1) (by omega) (by omega)
    have ihr := ih (a + 1) (fun t ht1 ht2 => h t (by omega) (by omega))
    simp only [pollLoopAux, h0, h1, Bool.false_eq_true, if_false, ihr]
    omega

theorem pollLoopAux_found (conf : Nat → Bool) (fuel a t : Nat)
    (h1 : a ≤ t) (h2 : t ≤ a + fuel) (hc : conf t = true) :
    conf (pollLoopAux conf a fuel) = true := by
  induction fuel generalizing a with
  | zero =>
    have ht : t = a := by omega
    subst ht
    simpa [pollLoopAux] using hc
  | succ k ih =>
    simp only [pollLoopAux]
    by_cases ha : conf a = true
    · simp [ha]
    · by_cases hb : conf (a + 1) = true
      · simp [ha, hb]
      · have hta : t ≠ a := fun e => ha (e ▸ hc)
        have ihc := ih (a + 1) (by omega) (by omega)
        simpa [ha, hb] using ihc

/-- If the flag is never observed true at any of the 31 read points
(poll counters 0 through 30), the wait exits at the ceiling, still
unconfirmed. -/
theorem pollExit_timeout (conf : Nat → Bool)
    (h : ∀ t, t ≤ 30 → conf t = false) :
    pollExit conf = 30 ∧ conf (pollExit conf) = false := by
  have he : pollExit conf = 30 :=
    pollLoopAux_none conf 30 0 (fun t _ ht2 => h t (by omega))
  exact ⟨he, by rw [he]; exact h 30 le_rfl⟩

/-- If the flag is observed true at some read point within the ceiling,
the wait exits confirmed. -/
theorem pollExit_found (conf : Nat → Bool) (t : Nat)
    (h1 : t ≤ 30) (hc : conf t = true) :
    conf (pollExit conf) = true :=
  pollLoopAux_found conf 30 0 t (Nat.zero_le t) (by omega) hc

theorem pollExit_le (conf : Nat → Bool) : pollExit conf ≤ 30 :=
  pollLoopAux_le conf 30 0

/-! ## Structural case analysis of the shared generation tail -/

/-- Every path through `finishGenerate` either ends in a failure exit with
a non-ok outcome, or in the success exit on a nonempty URL. -/
theorem finishGenerate_spec (env : Env) (s : CState) (tid : Option Nat)
    (pre : List ToastEvt) (req : GenRequest) :
    (∃ msg o, o ≠ FlowOutcome.ok ∧
      finishGenerate env s tid pre req = failExit s tid [req] pre msg o) ∨
    (∃ url, url ≠ "" ∧
      finishGenerate env s tid pre req = successExit env s tid pre req url) := by
  unfold finishGenerate
  split
  · exact Or.inl ⟨_, _, by decide, rfl⟩
  · split
    · exact Or.inl ⟨_, _, by decide, rfl⟩
    · split
      · exact Or.inl ⟨_, _, by decide, rfl⟩
      · split
        · exact Or.inl ⟨_, _, by decide, rfl⟩
        · rename_i url heq hu
          exact Or.inr ⟨url, hu, rfl⟩

/-- Whatever the response, the shared tail sends exactly the one request it
was given. -/
theorem finishGenerate_genCalls (env : Env) (s : CState) (tid : Option Nat)
    (pre : List ToastEvt) (req : GenRequest) :
    (finishGenerate env s tid pre req).genCalls = [req] := by
  rcases finishGenerate_spec env s tid pre req with
    ⟨m, o, ho, he⟩ | ⟨url, hu, he⟩ <;>
    rw [he] <;> rfl

/-- Exhaustive case analysis of the polling variant: empty prompt, missing
wallet, confirmation timeout, or the shared generation tail. -/
theorem handleGenerate_cases (env : Env) (s : CState) :
    (jsTrim s.prompt = "" ∧
      handleGenerate env s = validationFail s "Please enter a prompt") ∨
    (jsTrim s.prompt ≠ "" ∧ env.address = none ∧
      handleGenerate env s = validationFail s "Please connect your wallet first") ∨
    (jsTrim s.prompt ≠ "" ∧ env.address ≠ none ∧
      env.confirmed (pollExit env.confirmed) = false ∧
      handleGenerate env s = failExit (startState s) (exitToastId s.toastId)
        [] payToast
        "Payment confirmation timeout - transaction may have failed"
        FlowOutcome.timeout) ∨
    (jsTrim s.prompt ≠ "" ∧ env.address ≠ none ∧
      env.confirmed (pollExit env.confirmed) = true ∧
      handleGenerate env s = finishGenerate env (startState s)
        (exitToastId s.toastId) payToast
        { prompt := s.prompt, image := s.uploadedImage }) := by
  by_cases hp : jsTrim s.prompt = ""
  · exact Or.inl ⟨hp, by unfold handleGenerate; rw [if_pos hp]⟩
  by_cases ha : env.address = none
  · exact Or.inr (Or.inl ⟨hp, ha, by unfold handleGenerate; rw [if_neg hp, if_pos ha]⟩)
  by_cases hf : env.confirmed (pollExit env.confirmed) = true
  · exact Or.inr (Or.inr (Or.inr ⟨hp, ha, hf, by
      unfold handleGenerate; rw [if_neg hp, if_neg ha, if_pos hf]⟩))
  · exact Or.inr (Or.inr (Or.inl ⟨hp, ha, Bool.not_eq_true _ ▸ hf, by
      unfold handleGenerate; rw [if_neg hp, if_neg ha, if_neg hf]⟩))

/-- Exhaustive case analysis of the fixed-delay variant: empty prompt,
missing wallet, or the shared generation tail — no confirmation check. -/
theorem handleGenerateDelay_cases (env : Env) (s : CState) :
    (jsTrim s.prompt = "" ∧
      handleGenerateDelay env s = validationFail s "Please enter a prompt") ∨
    (jsTrim s.prompt ≠ "" ∧ env.address = none ∧
      handleGenerateDelay env s =
        validationFail s "Please connect your wallet first") ∨
    (jsTrim s.prompt ≠ "" ∧ env.address ≠ none ∧
      handleGenerateDelay env s = finishGenerate env (startStateDelay s)
        s.toastId []
        { prompt := s.prompt, image := s.uploadedImage }) := by
  by_cases hp : jsTrim s.prompt = ""
  · exact Or.inl ⟨hp, by unfold handleGenerateDelay; rw [if_pos hp]⟩
  by_cases ha : env.address = none
  · exact Or.inr (Or.inl ⟨hp, ha, by
      unfold handleGenerateDelay; rw [if_neg hp, if_pos ha]⟩)
  · exact Or.inr (Or.inr ⟨hp, ha, by
      unfold handleGenerateDelay; rw [if_neg hp, if_neg ha]⟩)

/-! ## Concrete fixtures used by witnesses and counterexamples -/

/-- A 2 MiB PNG upload, as in the spec's second scenario. -/
def pngFile : UFile :=
  { type := "image/png", size := 2 * 1024 * 1024, content := 7 }

/-- A well-formed success response from the generation endpoint. -/
def okResponse : ApiResponse :=
  { ok := true, imageUrl := some "https://example.com/img.png", error := none }

/-- Wallet connected, confirmation observed immediately, endpoint healthy. -/
def envOkConfirmed : Env :=
  { address := some "0xabc", confirmed := fun _ => true
    response := fun _ => Except.ok okResponse, now := 42 }

/-- Wallet connected, confirmation never observed, endpoint healthy. -/
def envNeverConfirmed : Env :=
  { address := some "0xabc", confirmed := fun _ => false
    response := fun _ => Except.ok okResponse, now := 42 }

/-- No wallet connected. -/
def envNoWallet : Env :=
  { address := none, confirmed := fun _ => false
    response := fun _ => Except.ok okResponse, now := 42 }

/-- Idle component state with the spec's first scenario prompt. -/
def sBase : CState :=
  { prompt := "a red bicycle", isGenerating := false, generatedImage := none
    generationHistory := [], uploadedImage := none, toastId := none
    txActive := false }

/-- Idle state with an uploaded image and the second scenario prompt. -/
def sWithImage : CState :=
  { sBase with prompt := "make it blue", uploadedImage := some pngFile }

/-! ## Shared helper lemmas about the flow's effects -/

theorem pushHistory_length (img : GImage) (prev : List GImage) :
    (pushHistory img prev).length ≤ 5 := by
  have := prev.length_take_le 4
  simp only [pushHistory, List.length_cons]
  omega

/-- On a full history, the push keeps the four newest entries and drops the
last (oldest) one. -/
theorem pushHistory_drops_oldest (img : GImage) (prev : List GImage)
    (h : prev.length = 5) : pushHistory img prev = img :: prev.dropLast := by
  rw [pushHistory, List.dropLast_eq_take, h]

/-- On an ok outcome of the polling variant, the new image is stored and
prepended, the history keeps only the four newest previous entries, and the
stored prompt carries the annotation exactly when an image was attached. -/
theorem handleGenerate_ok_shape (env : Env) (s : CState)
    (h : (handleGenerate env s).outcome = FlowOutcome.ok) :
    ∃ img, (handleGenerate env s).state.generatedImage = some img ∧
      (handleGenerate env s).state.generationHistory =
        img :: s.generationHistory.take 4 ∧
      img.prompt = (if s.uploadedImage.isSome then "Reimagined: " ++ s.prompt
        else s.prompt) := by
  rcases handleGenerate_cases env s with
    ⟨hp, he⟩ | ⟨hp, ha, he⟩ | ⟨hp, ha, hf, he⟩ | ⟨hp, ha, hf, he⟩
  · rw [he] at h; simp [validationFail] at h
  · rw [he] at h; simp [validationFail] at h
  · rw [he] at h; simp [failExit] at h
  · rw [he] at h ⊢
    rcases finishGenerate_spec env (startState s) (exitToastId s.toastId)
        payToast { prompt := s.prompt, image := s.uploadedImage } with
      ⟨m, o, ho, hq⟩ | ⟨url, hu, hq⟩
    · rw [hq] at h; exact absurd h ho
    · rw [hq]
      exact ⟨mkImage env (startState s) url, rfl, rfl, rfl⟩

/-- Same as `handleGenerate_ok_shape` for the fixed-delay variant. -/
theorem handleGenerateDelay_ok_shape (env : Env) (s : CState)
    (h : (handleGenerateDelay env s).outcome = FlowOutcome.ok) :
    ∃ img, (handleGenerateDelay env s).state.generatedImage = some img ∧
      (handleGenerateDelay env s).state.generationHistory =
        img :: s.generationHistory.take 4 ∧
      img.prompt = (if s.uploadedImage.isSome then "Reimagined: " ++ s.prompt
        else s.prompt) := by
  rcases handleGenerateDelay_cases env s with
    ⟨hp, he⟩ | ⟨hp, ha, he⟩ | ⟨hp, ha, he⟩
  · rw [he] at h; simp [validationFail] at h
  · rw [he] at h; simp [validationFail] at h
  · rw [he] at h ⊢
    rcases finishGenerate_spec env (startStateDelay s) s.toastId []
        { prompt := s.prompt, image := s.uploadedImage } with
      ⟨m, o, ho, hq⟩ | ⟨url, hu, hq⟩
    · rw [hq] at h; exact absurd h ho
    · rw [hq]
      exact ⟨mkImage env (startStateDelay s) url, rfl, rfl, rfl⟩

/-- On any non-ok outcome of the polling variant, the latest-result slot
and the history are untouched. -/
theorem handleGenerate_frame (env : Env) (s : CState)
    (h : (handleGenerate env s).outcome ≠ FlowOutcome.ok) :
    (handleGenerate env s).state.generationHistory = s.generationHistory ∧
    (handleGenerate env s).state.generatedImage = s.generatedImage := by
  rcases handleGenerate_cases env s with
    ⟨hp, he⟩ | ⟨hp, ha, he⟩ | ⟨hp, ha, hf, he⟩ | ⟨hp, ha, hf, he⟩
  · rw [he]; exact ⟨rfl, rfl⟩
  · rw [he]; exact ⟨rfl, rfl⟩
  · rw [he]; exact ⟨rfl, rfl⟩
  · rw [he] at h ⊢
    rcases finishGenerate_spec env (startState s) (exitToastId s.toastId)
        payToast { prompt := s.prompt, image := s.uploadedImage } with
      ⟨m, o, ho, hq⟩ | ⟨url, hu, hq⟩
    · rw [hq]; exact ⟨rfl, rfl⟩
    · rw [hq] at h; exact absurd rfl h

/-- Same as `handleGenerate_frame` for the fixed-delay variant. -/
theorem handleGenerateDelay_frame (env : Env) (s : CState)
    (h : (handleGenerateDelay env s).outcome ≠ FlowOutcome.ok) :
    (handleGenerateDelay env s).state.generationHistory =
      s.generationHistory ∧
    (handleGenerateDelay env s).state.generatedImage = s.generatedImage := by
  rcases handleGenerateDelay_cases env s with
    ⟨hp, he⟩ | ⟨hp, ha, he⟩ | ⟨hp, ha, he⟩
  · rw [he]; exact ⟨rfl, rfl⟩
  · rw [he]; exact ⟨rfl, rfl⟩
  · rw [he] at h ⊢
    rcases finishGenerate_spec env (startStateDelay s) s.toastId []
        { prompt := s.prompt, image := s.uploadedImage } with
      ⟨m, o, ho, hq⟩ | ⟨url, hu, hq⟩
    · rw [hq]; exact ⟨rfl, rfl⟩
    · rw [hq] at h; exact absurd rfl h

/-- One invocation of the polling variant keeps the history within the
5-entry bound. -/
theorem handleGenerate_hist_le (env : Env) (s : CState)
    (h : s.generationHistory.length ≤ 5) :
    (handleGenerate env s).state.generationHistory.length ≤ 5 := by
  by_cases ho : (handleGenerate env s).outcome = FlowOutcome.ok
  · obtain ⟨img, _, hh, _⟩ := handleGenerate_ok_shape env s ho
    rw [hh]
    exact pushHistory_length img s.generationHistory
  · rw [(handleGenerate_frame env s ho).1]
    exact h

/-- One invocation of the fixed-delay variant keeps the history within the
5-entry bound. -/
theorem handleGenerateDelay_hist_le (env : Env) (s : CState)
    (h : s.generationHistory.length ≤ 5) :
    (handleGenerateDelay env s).state.generationHistory.length ≤ 5 := by
  by_cases ho : (handleGenerateDelay env s).outcome = FlowOutcome.ok
  · obtain ⟨img, _, hh, _⟩ := handleGenerateDelay_ok_shape env s ho
    rw [hh]
    exact pushHistory_length img s.generationHistory
  · rw [(handleGenerateDelay_frame env s ho).1]
    exact h

theorem runSeq_hist_le (envs : List Env) (s : CState)
    (h : s.generationHistory.length ≤ 5) :
    (runSeq s envs).generationHistory.length ≤ 5 := by
  induction envs generalizing s with
  | nil => exact h
  | cons e rest ih => exact ih _ (handleGenerate_hist_le e s h)

theorem runSeqDelay_hist_le (envs : List Env) (s : CState)
    (h : s.generationHistory.length ≤ 5) :
    (runSeqDelay s envs).generationHistory.length ≤ 5 := by
  induction envs generalizing s with
  | nil => exact h
  | cons e rest ih => exact ih _ (handleGenerateDelay_hist_le e s h)

/-! ## The claims -/

/-- C1: in the polling variant, when validation passes and the confirmation
flag is never observed true at any read point up to the 30-poll ceiling,
the flow terminates with the payment-timeout error and the generation
endpoint is never called. -/
theorem generate_timeout_makes_no_calls (env : Env) (s : CState)
    (hp : jsTrim s.prompt ≠ "") (ha : env.address ≠ none)
    (hc : ∀ t, t ≤ 30 → env.confirmed t = false) :
    (handleGenerate env s).outcome = FlowOutcome.timeout ∧
    (handleGenerate env s).genCalls = [] ∧
    ToastEvt.error "Payment confirmation timeout - transaction may have failed"
      ∈ (handleGenerate env s).toasts := by
  obtain ⟨he, hf⟩ := pollExit_timeout env.confirmed hc
  rcases handleGenerate_cases env s with
    ⟨h1, hq⟩ | ⟨h1, h2, hq⟩ | ⟨h1, h2, h3, hq⟩ | ⟨h1, h2, h3, hq⟩
  · exact absurd h1 hp
  · exact absurd h2 ha
  · rw [hq]
    exact ⟨rfl, rfl, by simp [failExit, payToast]⟩
  · rw [hf] at h3
    exact absurd h3 (by decide)

/-- C1 witness: concrete run in which the flag is never observed true. -/
theorem generate_timeout_makes_no_calls_witness :
    (handleGenerate envNeverConfirmed sBase).outcome = FlowOutcome.timeout ∧
    (handleGenerate envNeverConfirmed sBase).genCalls = [] ∧
    ToastEvt.error "Payment confirmation timeout - transaction may have failed"
      ∈ (handleGenerate envNeverConfirmed sBase).toasts :=
  generate_timeout_makes_no_calls envNeverConfirmed sBase (by decide)
    (by decide) (fun t ht => rfl)

/-- C2 counterexample: with an image attached and confirmation observed at
poll 0, the single generation call carries the raw prompt, not the
`Reimagined: ` variant the claim prescribes for the image case. -/
theorem generate_call_prompt_not_annotated_cex :
    sWithImage.uploadedImage.isSome = true ∧
    envOkConfirmed.confirmed 0 = true ∧
    (handleGenerate envOkConfirmed sWithImage).genCalls =
      [{ prompt := "make it blue", image := some pngFile }] ∧
    ¬ ∀ r ∈ (handleGenerate envOkConfirmed sWithImage).genCalls,
        r.prompt = "Reimagined: " ++ sWithImage.prompt :=
  ⟨rfl, rfl, by decide, by decide⟩

/-- C2 (amended): when validation passes and the confirmation flag is
observed true within the 30-poll ceiling, exactly one generation call is
made, and its prompt field is exactly the prompt the user entered — also
when an image was attached (the annotated variant appears only in the
stored result, not in the call). -/
theorem generate_confirmed_single_call (env : Env) (s : CState)
    (hp : jsTrim s.prompt ≠ "") (ha : env.address ≠ none)
    (hc : ∃ t, t ≤ 30 ∧ env.confirmed t = true) :
    (handleGenerate env s).genCalls =
      [{ prompt := s.prompt, image := s.uploadedImage }] := by
  obtain ⟨t, ht, hct⟩ := hc
  have hf := pollExit_found env.confirmed t ht hct
  rcases handleGenerate_cases env s with
    ⟨h1, hq⟩ | ⟨h1, h2, hq⟩ | ⟨h1, h2, h3, hq⟩ | ⟨h1, h2, h3, hq⟩
  · exact absurd h1 hp
  · exact absurd h2 ha
  · rw [hf] at h3
    exact absurd h3 (by decide)
  · rw [hq]
    exact finishGenerate_genCalls env (startState s) (exitToastId s.toastId)
      payToast _

/-- C2 witness: concrete confirmed run making exactly one raw-prompt call. -/
theorem generate_confirmed_single_call_witness :
    (handleGenerate envOkConfirmed sBase).genCalls =
      [{ prompt := sBase.prompt, image := sBase.uploadedImage }] :=
  generate_confirmed_single_call envOkConfirmed sBase (by decide) (by decide)
    ⟨0, by decide, rfl⟩

/-- C3: the claimed guaranteed cleanup fails in the code.  On a flow
started from the idle state (the `toastId` cell null at invocation) that
times out waiting for confirmation, `isGenerating` and the transaction
state are reset and the timeout error is surfaced, but the `finally`
block's `if (toastId)` guard reads the render-captured `toastId` — null —
so the pending processing toast is not dismissed and the toast-id cell is
left holding the id set during the flow instead of being reset to its idle
value. -/
theorem generate_toast_id_not_reset :
    sBase.toastId = none ∧
    (handleGenerate envNeverConfirmed sBase).outcome = FlowOutcome.timeout ∧
    (handleGenerate envNeverConfirmed sBase).state.isGenerating = false ∧
    (handleGenerate envNeverConfirmed sBase).state.txActive = false ∧
    ToastEvt.error "Payment confirmation timeout - transaction may have failed"
      ∈ (handleGenerate envNeverConfirmed sBase).toasts ∧
    (handleGenerate envNeverConfirmed sBase).state.toastId = some 0 := by
  refine ⟨rfl, ?_, ?_, ?_, ?_, ?_⟩ <;> decide

/-- C4: the two variants are not equivalent: the polling variant issues a
generation call only when the confirmation flag was observed true within
the ceiling, while on an environment whose flag is never true the
fixed-delay variant still makes its one call and succeeds where the
polling variant times out having made none. -/
theorem variants_not_equivalent :
    (∀ env s, (handleGenerate env s).genCalls ≠ [] →
      ∃ t, t ≤ 30 ∧ env.confirmed t = true) ∧
    (∀ t, envNeverConfirmed.confirmed t = false) ∧
    (handleGenerate envNeverConfirmed sBase).genCalls = [] ∧
    (handleGenerate envNeverConfirmed sBase).outcome = FlowOutcome.timeout ∧
    (handleGenerateDelay envNeverConfirmed sBase).genCalls =
      [{ prompt := sBase.prompt, image := sBase.uploadedImage }] ∧
    (handleGenerateDelay envNeverConfirmed sBase).outcome = FlowOutcome.ok := by
  refine ⟨?_, fun t => rfl, by decide, by decide, by decide, by decide⟩
  intro env s hne
  rcases handleGenerate_cases env s with
    ⟨h1, hq⟩ | ⟨h1, h2, hq⟩ | ⟨h1, h2, h3, hq⟩ | ⟨h1, h2, h3, hq⟩
  · rw [hq] at hne
    exact absurd rfl hne
  · rw [hq] at hne
    exact absurd rfl hne
  · rw [hq] at hne
    exact absurd rfl hne
  · exact ⟨pollExit env.confirmed, pollExit_le env.confirmed, h3⟩

/-- C4 witness: the polling variant's call implies an observed
confirmation, at a concrete environment. -/
theorem variants_not_equivalent_witness :
    ∃ t, t ≤ 30 ∧ envOkConfirmed.confirmed t = true :=
  variants_not_equivalent.1 envOkConfirmed sBase (by decide)

/-- C5: across any sequence of invocations, in both variants, the history
never exceeds 5 entries; each successful generation prepends the new
result (newest first), keeping only the four newest previous entries; and
a push onto a full history evicts exactly the last (oldest) entry. -/
theorem history_bounded_newest_first :
    (∀ envs s, s.generationHistory.length ≤ 5 →
      (runSeq s envs).generationHistory.length ≤ 5) ∧
    (∀ envs s, s.generationHistory.length ≤ 5 →
      (runSeqDelay s envs).generationHistory.length ≤ 5) ∧
    (∀ env s, (handleGenerate env s).outcome = FlowOutcome.ok →
      ∃ img, (handleGenerate env s).state.generatedImage = some img ∧
        (handleGenerate env s).state.generationHistory =
          img :: s.generationHistory.take 4) ∧
    (∀ env s, (handleGenerateDelay env s).outcome = FlowOutcome.ok →
      ∃ img, (handleGenerateDelay env s).state.generatedImage = some img ∧
        (handleGenerateDelay env s).state.generationHistory =
          img :: s.generationHistory.take 4) ∧
    (∀ img prev, prev.length = 5 →
      pushHistory img prev = img :: prev.dropLast) := by
  refine ⟨runSeq_hist_le, runSeqDelay_hist_le, ?_, ?_, pushHistory_drops_oldest⟩
  · intro env s ho
    obtain ⟨img, h1, h2, _⟩ := handleGenerate_ok_shape env s ho
    exact ⟨img, h1, h2⟩
  · intro env s ho
    obtain ⟨img, h1, h2, _⟩ := handleGenerateDelay_ok_shape env s ho
    exact ⟨img, h1, h2⟩

/-- C5 witness: two concrete invocations keep the history within bound. -/
theorem history_bounded_newest_first_witness :
    (runSeq sBase [envOkConfirmed, envNeverConfirmed]).generationHistory.length
      ≤ 5 :=
  history_bounded_newest_first.1 [envOkConfirmed, envNeverConfirmed] sBase
    (by decide)

/-- C6: an empty-after-trimming prompt or a missing wallet address makes
`handleGenerate` surface a validation error and return with no payment
transaction submitted, no generation call, and the component state
untouched. -/
theorem generate_validation_guard (env : Env) (s : CState)
    (h : jsTrim s.prompt = "" ∨ env.address = none) :
    (handleGenerate env s).outcome = FlowOutcome.validationError ∧
    (handleGenerate env s).genCalls = [] ∧
    (handleGenerate env s).txSubmitted = false ∧
    (handleGenerate env s).state = s ∧
    ∃ msg, ToastEvt.error msg ∈ (handleGenerate env s).toasts := by
  rcases handleGenerate_cases env s with
    ⟨h1, hq⟩ | ⟨h1, h2, hq⟩ | ⟨h1, h2, h3, hq⟩ | ⟨h1, h2, h3, hq⟩
  · rw [hq]
    exact ⟨rfl, rfl, rfl, rfl,
      ⟨"Please enter a prompt", by simp [validationFail]⟩⟩
  · rw [hq]
    exact ⟨rfl, rfl, rfl, rfl,
      ⟨"Please connect your wallet first", by simp [validationFail]⟩⟩
  · rcases h with h | h
    · exact absurd h h1
    · exact absurd h h2
  · rcases h with h | h
    · exact absurd h h1
    · exact absurd h h2

/-- C6 witness: a whitespace-only prompt with no wallet address. -/
theorem generate_validation_guard_witness :
    (handleGenerate envNoWallet sBase).outcome = FlowOutcome.validationError ∧
    (handleGenerate envNoWallet sBase).genCalls = [] ∧
    (handleGenerate envNoWallet sBase).txSubmitted = false ∧
    (handleGenerate envNoWallet sBase).state = sBase ∧
    ∃ msg, ToastEvt.error msg ∈ (handleGenerate envNoWallet sBase).toasts :=
  generate_validation_guard envNoWallet sBase (Or.inr rfl)

/-- A file of exactly 10 MiB with an image MIME type. -/
def bigPng : UFile :=
  { type := "image/png", size := 10 * 1024 * 1024, content := 3 }

/-- Empty upload slots. -/
def upState : UploadState :=
  { uploadedImage := none, uploadedImagePreview := none }

/-- C7: `handleFileUpload` rejects a non-image MIME type or a file over
10 MiB with an error toast and no change to the uploaded-image or preview
state, and accepts a file of exactly 10 MiB with an image MIME type. -/
theorem fileUpload_guard :
    (∀ f s, (jsStartsWith f.type "image/" = false ∨
        10 * 1024 * 1024 < f.size) →
      (handleFileUpload (some f) s).1 = s ∧
      ∃ msg, ToastEvt.error msg ∈ (handleFileUpload (some f) s).2) ∧
    (∀ f s, jsStartsWith f.type "image/" = true →
      f.size = 10 * 1024 * 1024 →
      (handleFileUpload (some f) s).1.uploadedImage = some f ∧
      (handleFileUpload (some f) s).1.uploadedImagePreview =
        some (dataUrl f) ∧
      (handleFileUpload (some f) s).2 =
        [ToastEvt.success "Image uploaded successfully!"]) := by
  constructor
  · intro f s h
    by_cases ht : jsStartsWith f.type "image/" = false
    · constructor
      · simp [handleFileUpload, ht]
      · exact ⟨"Please upload an image file", by simp [handleFileUpload, ht]⟩
    · have hs : 10 * 1024 * 1024 < f.size := by
        rcases h with h | h
        · exact absurd h ht
        · exact h
      constructor
      · simp [handleFileUpload, ht, hs]
      · exact ⟨"File size must be less than 10MB", by
          simp [handleFileUpload, ht, hs]⟩
  · intro f s h1 h2
    have ht : ¬ (jsStartsWith f.type "image/" = false) := by simp [h1]
    have hs : ¬ (10 * 1024 * 1024 < f.size) := by omega
    refine ⟨?_, ?_, ?_⟩ <;> simp [handleFileUpload, ht, hs]

/-- C7 witness: a 10 MiB PNG is accepted and stored with its preview. -/
theorem fileUpload_guard_witness :
    (handleFileUpload (some bigPng) upState).1.uploadedImage = some bigPng ∧
    (handleFileUpload (some bigPng) upState).1.uploadedImagePreview =
      some (dataUrl bigPng) ∧
    (handleFileUpload (some bigPng) upState).2 =
      [ToastEvt.success "Image uploaded successfully!"] :=
  fileUpload_guard.2 bigPng upState (by decide) rfl

/-- A server environment with no Replicate API token configured. -/
def apiEnvNoToken : ApiEnv :=
  { token := none, runModel := fun _ => Except.ok "https://example.com/img.png" }

/-- C8 counterexample: with the Replicate token unset and a valid prompt,
the route fails with status 500 and a JSON `error`, but the body carries no
`details` field — against the claim that every failure other than a missing
prompt carries one. -/
theorem apiPOST_failure_without_details_cex :
    (apiPOST apiEnvNoToken (some "a red bicycle") none).1.status = 500 ∧
    (apiPOST apiEnvNoToken (some "a red bicycle") none).1.error =
      some "Server configuration error: Replicate API token not configured" ∧
    (apiPOST apiEnvNoToken (some "a red bicycle") none).1.details = none := by
  refine ⟨?_, ?_, ?_⟩ <;> decide

/-- C8 (amended): a missing (or empty, hence falsy) prompt gives 400 with a
JSON error string and no model call; success gives 200 with the `success`
flag and a string `imageUrl`; any other failure gives a non-2xx status with
a JSON error string, and a `details` field exactly when the failure is a
thrown generation error (the missing-token configuration error carries
none). -/
theorem apiPOST_contract :
    (∀ env img, (apiPOST env none img).1.status = 400 ∧
      (apiPOST env none img).1.error = some "Prompt is required" ∧
      (apiPOST env none img).2 = 0) ∧
    (∀ env img, (apiPOST env (some "") img).1.status = 400 ∧
      (apiPOST env (some "") img).1.error = some "Prompt is required" ∧
      (apiPOST env (some "") img).2 = 0) ∧
    (∀ rm p img, p ≠ "" →
      (apiPOST { token := none, runModel := rm } (some p) img).1.status = 500 ∧
      (apiPOST { token := none, runModel := rm } (some p) img).1.error ≠ none ∧
      (apiPOST { token := none, runModel := rm } (some p) img).1.details
        = none ∧
      (apiPOST { token := none, runModel := rm } (some p) img).2 = 0) ∧
    (∀ tok rm p img msg, p ≠ "" →
      rm { prompt := p, image := img } = Except.error msg →
      (apiPOST { token := some tok, runModel := rm } (some p) img).1.status
        = 500 ∧
      (apiPOST { token := some tok, runModel := rm } (some p) img).1.error =
        some "Failed to generate image" ∧
      (apiPOST { token := some tok, runModel := rm } (some p) img).1.details =
        some msg) ∧
    (∀ tok rm p img url, p ≠ "" →
      rm { prompt := p, image := img } = Except.ok url →
      (apiPOST { token := some tok, runModel := rm } (some p) img).1.status
        = 200 ∧
      (apiPOST { token := some tok, runModel := rm } (some p) img).1.success
        = true ∧
      (apiPOST { token := some tok, runModel := rm } (some p) img).1.imageUrl
        = some url) := by
  refine ⟨fun env img => ⟨rfl, rfl, rfl⟩, fun env img => ⟨?_, ?_, ?_⟩,
    ?_, ?_, ?_⟩
  · simp [apiPOST]
  · simp [apiPOST]
  · simp [apiPOST]
  · intro rm p img hp
    refine ⟨?_, ?_, ?_, ?_⟩ <;> simp [apiPOST, hp]
  · intro tok rm p img msg hp hrm
    refine ⟨?_, ?_, ?_⟩ <;> simp [apiPOST, hp, hrm]
  · intro tok rm p img url hp hrm
    refine ⟨?_, ?_, ?_⟩ <;> simp [apiPOST, hp, hrm]

/-- C8 witness: the missing-token branch at concrete inputs. -/
theorem apiPOST_contract_witness :
    (apiPOST apiEnvNoToken (some "a red bicycle") none).1.status = 500 ∧
    (apiPOST apiEnvNoToken (some "a red bicycle") none).1.error ≠ none ∧
    (apiPOST apiEnvNoToken (some "a red bicycle") none).1.details = none ∧
    (apiPOST apiEnvNoToken (some "a red bicycle") none).2 = 0 :=
  apiPOST_contract.2.2.1 (fun _ => Except.ok "https://example.com/img.png")
    "a red bicycle" none (by decide)

/-- C9: in both variants, every non-ok exit of the flow — validation
failure, payment timeout, transport error, non-ok response, or invalid
result URL — leaves the generation history and the displayed latest result
exactly as they were before the invocation. -/
theorem generate_error_frame :
    (∀ env s, (handleGenerate env s).outcome ≠ FlowOutcome.ok →
      (handleGenerate env s).state.generationHistory = s.generationHistory ∧
      (handleGenerate env s).state.generatedImage = s.generatedImage) ∧
    (∀ env s, (handleGenerateDelay env s).outcome ≠ FlowOutcome.ok →
      (handleGenerateDelay env s).state.generationHistory =
        s.generationHistory ∧
      (handleGenerateDelay env s).state.generatedImage = s.generatedImage) :=
  ⟨handleGenerate_frame, handleGenerateDelay_frame⟩

/-- C9 witness: a concrete timed-out run leaves result state untouched. -/
theorem generate_error_frame_witness :
    (handleGenerate envNeverConfirmed sBase).state.generationHistory =
      sBase.generationHistory ∧
    (handleGenerate envNeverConfirmed sBase).state.generatedImage =
      sBase.generatedImage :=
  generate_error_frame.1 envNeverConfirmed sBase (by decide)

/-- C10: every request either variant sends carries the raw, untrimmed,
unannotated user prompt — image attached or not; the `Reimagined: ` prefix
appears only on the stored result (client side) and on the prompt echoed in
the endpoint's success response (server side), in both cases exactly when
an image was included. -/
theorem raw_prompt_in_requests :
    (∀ env s r, r ∈ (handleGenerate env s).genCalls → r.prompt = s.prompt) ∧
    (∀ env s r, r ∈ (handleGenerateDelay env s).genCalls →
      r.prompt = s.prompt) ∧
    (∀ env s img, (handleGenerate env s).outcome = FlowOutcome.ok →
      (handleGenerate env s).state.generatedImage = some img →
      img.prompt = (if s.uploadedImage.isSome then
        "Reimagined: " ++ s.prompt else s.prompt)) ∧
    (∀ env s img, (handleGenerateDelay env s).outcome = FlowOutcome.ok →
      (handleGenerateDelay env s).state.generatedImage = some img →
      img.prompt = (if s.uploadedImage.isSome then
        "Reimagined: " ++ s.prompt else s.prompt)) ∧
    (∀ tok rm p img url, rm { prompt := p, image := img } = Except.ok url →
      p ≠ "" →
      (apiPOST { token := some tok, runModel := rm } (some p) img).1.prompt =
        some (if img.isSome then "Reimagined: " ++ p else p)) := by
  refine ⟨?_, ?_, ?_, ?_, ?_⟩
  · intro env s r hr
    rcases handleGenerate_cases env s with
      ⟨h1, hq⟩ | ⟨h1, h2, hq⟩ | ⟨h1, h2, h3, hq⟩ | ⟨h1, h2, h3, hq⟩
    · rw [hq] at hr
      simp [validationFail] at hr
    · rw [hq] at hr
      simp [validationFail] at hr
    · rw [hq] at hr
      simp [failExit] at hr
    · rw [hq, finishGenerate_genCalls] at hr
      simp only [List.mem_singleton] at hr
      subst hr
      rfl
  · intro env s r hr
    rcases handleGenerateDelay_cases env s with
      ⟨h1, hq⟩ | ⟨h1, h2, hq⟩ | ⟨h1, h2, hq⟩
    · rw [hq] at hr
      simp [validationFail] at hr
    · rw [hq] at hr
      simp [validationFail] at hr
    · rw [hq, finishGenerate_genCalls] at hr
      simp only [List.mem_singleton] at hr
      subst hr
      rfl
  · intro env s img ho hi
    obtain ⟨img2, h1, h2, h3⟩ := handleGenerate_ok_shape env s ho
    rw [h1] at hi
    injection hi with hh
    rw [← hh]
    exact h3
  · intro env s img ho hi
    obtain ⟨img2, h1, h2, h3⟩ := handleGenerateDelay_ok_shape env s ho
    rw [h1] at hi
    injection hi with hh
    rw [← hh]
    exact h3
  · intro tok rm p img url hrm hp
    simp [apiPOST, hp, hrm]

/-- C10 witness: the concrete image-attached run sends the raw prompt. -/
theorem raw_prompt_in_requests_witness :
    GenRequest.prompt { prompt := "make it blue", image := some pngFile } =
      sWithImage.prompt :=
  raw_prompt_in_requests.1 envOkConfirmed sWithImage
    { prompt := "make it blue", image := some pngFile } (by decide)
